import Mathlib

/-
Verification of the coco-2017 dataset module (`__init__.py`).

The module has two orchestration functions, `download_and_prepare` and
`load_dataset`.  Both are integration glue: they join paths, call one
external collaborator exactly once, and (for the download step) delete a
scratch directory.  We embed them shallowly:

* the external collaborators (`fouc.download_coco_dataset_split` and
  `dataset.add_dir`) are passed in as function parameters, so theorems
  quantify over all collaborator behaviours;
* the filesystem is a list of directory paths that exist;
* Python exceptions are `Except PyError`;
* every run additionally returns the list of argument records with which
  the collaborator was invoked, so "called exactly once with exactly
  these arguments" is a statement about that trace;
* the filter parameters (`label_types`, `classes`, `image_ids`,
  `num_workers`, `seed`, `max_samples`) are only forwarded by the code,
  never inspected, so the embedding is polymorphic in their types,
  mirroring Python's lack of any local validation.
-/

set_option autoImplicit false

namespace Coco2017

/-- A Python exception value, identified by its class-and-message text. -/
structure PyError where
  msg : String
deriving DecidableEq, Repr

/-- The filesystem model: the list of directory paths that currently exist. -/
abbrev FS := List String

/-- Model of `os.path.join` for two components (POSIX rules: an absolute
second component replaces the first; a separator is inserted unless the
first component is empty or already ends with one).  Stated over the
character lists underlying the strings so that it evaluates on concrete
inputs. -/
def osPathJoin (a b : String) : String :=
  if b.data.head? = some '/' then b
  else if a.data = [] ∨ a.data.getLast? = some '/' then a ++ b
  else a ++ "/" ++ b

/-- The `TypeError` raised by `os.path.join` when handed `None`, as happens
on line 68 (and line 137) when the caller omits `split`. -/
def joinNoneTypeError : PyError :=
  ⟨"TypeError: join() argument must be str, bytes, or os.PathLike object, not NoneType"⟩

/-- Model of `shutil.rmtree`: removes the directory tree rooted at `path`
(the target itself and everything below it).  When the target does not
exist it raises `FileNotFoundError` — unless `ignore` (Python's
`ignore_errors`) is set, in which case every failure is suppressed and the
filesystem is returned unchanged. -/
def shutilRmtree (fs : FS) (path : String) (ignore : Bool) : Except PyError FS :=
  if path ∈ fs then
    .ok (fs.filter (fun d => !(d == path || List.isPrefixOf (path.data ++ ['/']) d.data)))
  else if ignore then .ok fs
  else .error ⟨"FileNotFoundError: " ++ path⟩

/-- The argument record with which `fouc.download_coco_dataset_split` is
invoked on lines 73–86: destination directory, split, version tag, the six
pass-through filter parameters, and the two auxiliary directories. -/
structure DownloadArgs (L C I W S M : Type) where
  dest_dir : String
  split : String
  year : String
  label_types : L
  classes : C
  image_ids : I
  num_workers : W
  shuffle : Bool
  seed : S
  max_samples : M
  raw_dir : String
  scratch_dir : String
deriving DecidableEq, Repr

/-- An external downloader: from its argument record and the current
filesystem it either returns `(num_samples, classes, extra)` or raises,
in both cases also yielding the filesystem it leaves behind. -/
abbrev Downloader (L C I W S M E : Type) :=
  DownloadArgs L C I W S M → FS → Except PyError (Nat × List String × E) × FS

/-- Shallow embedding of `download_and_prepare` (lines 15–90).  The body
mirrors the source line by line:

* line 68: `split_dir = os.path.join(dataset_dir, split)` — raises
  `TypeError` when `split` is `None` (its default), before anything else;
* lines 69–70: `raw_dir`, `scratch_dir` path joins;
* line 72: `dataset_type = None`;
* lines 73–86: the single call to `fouc.download_coco_dataset_split`,
  destructured as `num_samples, classes, _` (third component discarded);
  an exception propagates with no handler, so no cleanup runs;
* line 88: `shutil.rmtree(scratch_dir, ignore_errors=True)`;
* line 90: `return dataset_type, num_samples, classes`.

The result pairs the Python outcome (value-or-exception plus final
filesystem) with the trace of downloader invocations. -/
def download_and_prepare {L C I W S M E : Type}
    (fouc_download : Downloader L C I W S M E)
    (dataset_dir : String) (split : Option String)
    (label_types : L) (classes : C) (image_ids : I) (num_workers : W)
    (shuffle : Bool) (seed : S) (max_samples : M) (fs : FS) :
    (Except PyError (Option Unit × Nat × List String) × FS) ×
      List (DownloadArgs L C I W S M) :=
  match split with
  | none => ((.error joinNoneTypeError, fs), [])
  | some sp =>
    let split_dir := osPathJoin dataset_dir sp
    let raw_dir := osPathJoin dataset_dir "raw"
    let scratch_dir := osPathJoin dataset_dir "tmp-download"
    let dataset_type : Option Unit := none
    let args : DownloadArgs L C I W S M :=
      ⟨split_dir, sp, "2017", label_types, classes, image_ids, num_workers,
        shuffle, seed, max_samples, raw_dir, scratch_dir⟩
    match fouc_download args fs with
    | (.error e, fs1) => ((.error e, fs1), [args])
    | (.ok (num_samples, cls, _extra), fs1) =>
      match shutilRmtree fs1 scratch_dir true with
      | .error e => ((.error e, fs1), [args])
      | .ok fs2 => ((.ok (dataset_type, num_samples, cls), fs2), [args])

/-- The fixed annotation-format identifier passed to `dataset.add_dir` on
line 140: `fo.types.COCODetectionDataset`. -/
inductive FoDatasetType where
  | COCODetectionDataset
deriving DecidableEq, Repr

/-- The argument record with which `dataset.add_dir` is invoked on
lines 138–147. -/
structure AddDirArgs (L C I S M : Type) where
  dataset_dir : String
  dataset_type : FoDatasetType
  label_types : L
  classes : C
  image_ids : I
  shuffle : Bool
  seed : S
  max_samples : M
deriving DecidableEq, Repr

/-- The caller-owned dataset handle's `add_dir` operation: from its
argument record and the current dataset state it either returns some value
(discarded by the caller) or raises, in both cases also yielding the
dataset state it leaves behind. -/
abbrev AddDirFn (L C I S M D R : Type) :=
  AddDirArgs L C I S M → D → Except PyError R × D

/-- Shallow embedding of `load_dataset` (lines 93–147), mirroring the
source: line 137 computes `split_dir = os.path.join(dataset_dir, split)`
(raising `TypeError` when `split` is `None`); lines 138–147 make the
single `dataset.add_dir` call, whose return value is discarded; the
function body ends there, so Python returns `None` (unit).  The result
pairs the Python outcome (unit-or-exception plus final dataset state) with
the trace of `add_dir` invocations. -/
def load_dataset {L C I S M D R : Type}
    (add_dir : AddDirFn L C I S M D R)
    (dataset : D) (dataset_dir : String) (split : Option String)
    (label_types : L) (classes : C) (image_ids : I)
    (shuffle : Bool) (seed : S) (max_samples : M) :
    (Except PyError Unit × D) × List (AddDirArgs L C I S M) :=
  match split with
  | none => ((.error joinNoneTypeError, dataset), [])
  | some sp =>
    let split_dir := osPathJoin dataset_dir sp
    let args : AddDirArgs L C I S M :=
      ⟨split_dir, FoDatasetType.COCODetectionDataset, label_types, classes,
        image_ids, shuffle, seed, max_samples⟩
    match add_dir args dataset with
    | (.error e, d1) => ((.error e, d1), [args])
    | (.ok _, d1) => ((.ok (), d1), [args])

end Coco2017

namespace Coco2017

theorem download_trace_eq {L C I W S M E : Type}
    (dl : Downloader L C I W S M E) (dataset_dir sp : String)
    (lt : L) (cl : C) (ii : I) (nw : W) (sh : Bool) (sd : S) (ms : M) (fs : FS) :
    (download_and_prepare dl dataset_dir (some sp) lt cl ii nw sh sd ms fs).2 =
      [⟨osPathJoin dataset_dir sp, sp, "2017", lt, cl, ii, nw, sh, sd, ms,
        osPathJoin dataset_dir "raw", osPathJoin dataset_dir "tmp-download"⟩] := by
  unfold download_and_prepare
  rcases hdl : dl ⟨osPathJoin dataset_dir sp, sp, "2017", lt, cl, ii, nw, sh, sd, ms,
      osPathJoin dataset_dir "raw", osPathJoin dataset_dir "tmp-download"⟩ fs with ⟨e | v, fs1⟩
  · simp [hdl]
  · rcases v with ⟨n, cs, ex⟩
    rcases hrm : shutilRmtree fs1 (osPathJoin dataset_dir "tmp-download") true with e | fs2 <;>
      simp [hdl, hrm]


theorem shutilRmtree_ignore_ok (fs : FS) (p : String) :
    ∃ fs2, shutilRmtree fs p true = .ok fs2 ∧ p ∉ fs2 := by
  unfold shutilRmtree
  by_cases h : p ∈ fs
  · refine ⟨fs.filter (fun d => !(d == p || List.isPrefixOf (p.data ++ ['/']) d.data)), ?_, ?_⟩
    · simp [h]
    · intro hmem
      rcases List.mem_filter.mp hmem with ⟨-, hpred⟩
      simp at hpred
  · exact ⟨fs, by simp [h], h⟩

theorem download_ok_eq {L C I W S M E : Type}
    (dl : Downloader L C I W S M E) (dataset_dir sp : String)
    (lt : L) (cl : C) (ii : I) (nw : W) (sh : Bool) (sd : S) (ms : M) (fs : FS)
    (n : Nat) (cs : List String) (ex : E) (fs1 : FS)
    (hdl : dl ⟨osPathJoin dataset_dir sp, sp, "2017", lt, cl, ii, nw, sh, sd, ms,
        osPathJoin dataset_dir "raw", osPathJoin dataset_dir "tmp-download"⟩ fs =
      (.ok (n, cs, ex), fs1)) :
    (download_and_prepare dl dataset_dir (some sp) lt cl ii nw sh sd ms fs).1.1 =
        .ok ((none : Option Unit), n, cs) ∧
      osPathJoin dataset_dir "tmp-download" ∉
        (download_and_prepare dl dataset_dir (some sp) lt cl ii nw sh sd ms fs).1.2 := by
  obtain ⟨fs2, hrm, hout⟩ :=
    shutilRmtree_ignore_ok fs1 (osPathJoin dataset_dir "tmp-download")
  unfold download_and_prepare
  simp [hdl, hrm, hout]

theorem download_err_eq {L C I W S M E : Type}
    (dl : Downloader L C I W S M E) (dataset_dir sp : String)
    (lt : L) (cl : C) (ii : I) (nw : W) (sh : Bool) (sd : S) (ms : M) (fs : FS)
    (e : PyError) (fs1 : FS)
    (hdl : dl ⟨osPathJoin dataset_dir sp, sp, "2017", lt, cl, ii, nw, sh, sd, ms,
        osPathJoin dataset_dir "raw", osPathJoin dataset_dir "tmp-download"⟩ fs =
      (.error e, fs1)) :
    (download_and_prepare dl dataset_dir (some sp) lt cl ii nw sh sd ms fs).1 =
      (.error e, fs1) := by
  unfold download_and_prepare
  simp [hdl]

theorem load_run_eq {L C I S M D R : Type}
    (ad : AddDirFn L C I S M D R) (dataset : D) (dataset_dir sp : String)
    (lt : L) (cl : C) (ii : I) (sh : Bool) (sd : S) (ms : M) :
    (load_dataset ad dataset dataset_dir (some sp) lt cl ii sh sd ms).2 =
        [⟨osPathJoin dataset_dir sp, FoDatasetType.COCODetectionDataset,
          lt, cl, ii, sh, sd, ms⟩] ∧
      (load_dataset ad dataset dataset_dir (some sp) lt cl ii sh sd ms).1.2 =
        (ad ⟨osPathJoin dataset_dir sp, FoDatasetType.COCODetectionDataset,
          lt, cl, ii, sh, sd, ms⟩ dataset).2 ∧
      (load_dataset ad dataset dataset_dir (some sp) lt cl ii sh sd ms).1.1 =
        Except.map (fun _ => ())
          (ad ⟨osPathJoin dataset_dir sp, FoDatasetType.COCODetectionDataset,
            lt, cl, ii, sh, sd, ms⟩ dataset).1 := by
  unfold load_dataset
  rcases had : ad ⟨osPathJoin dataset_dir sp, FoDatasetType.COCODetectionDataset,
      lt, cl, ii, sh, sd, ms⟩ dataset with ⟨e | v, d1⟩ <;>
    simp [had, Except.map]


/-- Claim C1 is refuted as stated: with `dataset_dir = "/ds"`, `split =
"train"`, the scratch directory `/ds/tmp-download` present, and a downloader
that raises `ConnectionError` leaving the filesystem unchanged, the scratch
directory is still present when `download_and_prepare` completes.  The
`shutil.rmtree` call on line 88 sits after the downloader call with no
try/finally, so it is never reached on the error path. -/
theorem c1_cleanup_on_error_counterexample :
    "/ds/tmp-download" ∈
      (download_and_prepare
        (fun (_ : DownloadArgs Unit Unit Unit Unit Unit Unit) fs =>
          ((.error ⟨"ConnectionError"⟩ : Except PyError (Nat × List String × Unit)), fs))
        "/ds" (some "train") () () () () false () () ["/ds/tmp-download"]).1.2 := by
  decide

/-- Claim C1 (amended): the scratch-directory cleanup runs only on the
normal-return path.  When the downloader returns normally the scratch
directory `dataset_dir/tmp-download` is absent after the call (whether or
not it existed beforehand); when the downloader raises, the error
propagates and the filesystem is left exactly as the downloader left it,
with no cleanup attempted. -/
theorem c1_cleanup_success_path_only {L C I W S M E : Type}
    (dl : Downloader L C I W S M E) (dataset_dir sp : String)
    (lt : L) (cl : C) (ii : I) (nw : W) (sh : Bool) (sd : S) (ms : M) (fs : FS) :
    (∀ n cs ex fs1,
        dl ⟨osPathJoin dataset_dir sp, sp, "2017", lt, cl, ii, nw, sh, sd, ms,
            osPathJoin dataset_dir "raw", osPathJoin dataset_dir "tmp-download"⟩ fs =
          (.ok (n, cs, ex), fs1) →
        osPathJoin dataset_dir "tmp-download" ∉
          (download_and_prepare dl dataset_dir (some sp) lt cl ii nw sh sd ms fs).1.2) ∧
    (∀ e fs1,
        dl ⟨osPathJoin dataset_dir sp, sp, "2017", lt, cl, ii, nw, sh, sd, ms,
            osPathJoin dataset_dir "raw", osPathJoin dataset_dir "tmp-download"⟩ fs =
          (.error e, fs1) →
        (download_and_prepare dl dataset_dir (some sp) lt cl ii nw sh sd ms fs).1.2 = fs1) := by
  constructor
  · intro n cs ex fs1 hdl
    exact (download_ok_eq dl dataset_dir sp lt cl ii nw sh sd ms fs n cs ex fs1 hdl).2
  · intro e fs1 hdl
    rw [download_err_eq dl dataset_dir sp lt cl ii nw sh sd ms fs e fs1 hdl]

theorem c1_cleanup_success_path_only_witness :
    osPathJoin "/w" "tmp-download" ∉
      (download_and_prepare
        (fun (_ : DownloadArgs Unit Unit Unit Unit Unit Unit) fs =>
          ((.ok (2, ["dog"], ()) : Except PyError (Nat × List String × Unit)), fs))
        "/w" (some "validation") () () () () false () ()
        ["/w/tmp-download", "/w/raw"]).1.2 :=
  (c1_cleanup_success_path_only _ "/w" "validation" () () () () false () ()
    ["/w/tmp-download", "/w/raw"]).1 2 ["dog"] () ["/w/tmp-download", "/w/raw"] rfl

/-- Claim C2: the cleanup step never raises when the scratch directory is
already absent.  `shutil.rmtree(scratch_dir, ignore_errors=True)` on a
missing directory returns success with the filesystem unchanged, and hence
a `download_and_prepare` run whose downloader succeeds leaving no scratch
directory behind completes successfully with the downloader's filesystem
untouched by the cleanup. -/
theorem c2_cleanup_missing_dir_ok {L C I W S M E : Type}
    (dl : Downloader L C I W S M E) (dataset_dir sp : String)
    (lt : L) (cl : C) (ii : I) (nw : W) (sh : Bool) (sd : S) (ms : M) (fs : FS)
    (n : Nat) (cs : List String) (ex : E) (fs1 : FS)
    (habs : osPathJoin dataset_dir "tmp-download" ∉ fs1)
    (hdl : dl ⟨osPathJoin dataset_dir sp, sp, "2017", lt, cl, ii, nw, sh, sd, ms,
        osPathJoin dataset_dir "raw", osPathJoin dataset_dir "tmp-download"⟩ fs =
      (.ok (n, cs, ex), fs1)) :
    shutilRmtree fs1 (osPathJoin dataset_dir "tmp-download") true = .ok fs1 ∧
      (download_and_prepare dl dataset_dir (some sp) lt cl ii nw sh sd ms fs).1 =
        (.ok ((none : Option Unit), n, cs), fs1) := by
  have hrm : shutilRmtree fs1 (osPathJoin dataset_dir "tmp-download") true = .ok fs1 := by
    unfold shutilRmtree
    simp [habs]
  refine ⟨hrm, ?_⟩
  unfold download_and_prepare
  simp [hdl, hrm]

theorem c2_cleanup_missing_dir_ok_witness :
    shutilRmtree ["/d2/raw"] (osPathJoin "/d2" "tmp-download") true = .ok ["/d2/raw"] ∧
      (download_and_prepare
        (fun (_ : DownloadArgs Unit Unit Unit Unit Unit Unit) fs =>
          ((.ok (1, ["dog"], ()) : Except PyError (Nat × List String × Unit)), fs))
        "/d2" (some "validation") () () () () false () () ["/d2/raw"]).1 =
      (.ok ((none : Option Unit), 1, ["dog"]), ["/d2/raw"]) :=
  c2_cleanup_missing_dir_ok _ "/d2" "validation" () () () () false () () ["/d2/raw"]
    1 ["dog"] () ["/d2/raw"] (by decide) rfl

/-- Claim C9: `split` has no usable internal default.  When the caller
omits it (Python default `None`), the `os.path.join(dataset_dir, split)`
on line 68 raises `TypeError` before the downloader is ever invoked: the
call trace is empty and the filesystem is unchanged, so no network or
download side effects occur. -/
theorem c9_split_none_fails_before_download {L C I W S M E : Type}
    (dl : Downloader L C I W S M E) (dataset_dir : String)
    (lt : L) (cl : C) (ii : I) (nw : W) (sh : Bool) (sd : S) (ms : M) (fs : FS) :
    download_and_prepare dl dataset_dir none lt cl ii nw sh sd ms fs =
      ((.error joinNoneTypeError, fs), []) := rfl


/-- Claim C3: when the downloader raises, `download_and_prepare` propagates
that very error to the caller unmodified — the outcome is the same error
value and the filesystem the downloader left — and the call trace has
length one, so there is no retry, no catching, and no translation. -/
theorem c3_downloader_error_propagates {L C I W S M E : Type}
    (dl : Downloader L C I W S M E) (dataset_dir sp : String)
    (lt : L) (cl : C) (ii : I) (nw : W) (sh : Bool) (sd : S) (ms : M) (fs : FS)
    (e : PyError) (fs1 : FS)
    (hdl : dl ⟨osPathJoin dataset_dir sp, sp, "2017", lt, cl, ii, nw, sh, sd, ms,
        osPathJoin dataset_dir "raw", osPathJoin dataset_dir "tmp-download"⟩ fs =
      (.error e, fs1)) :
    (download_and_prepare dl dataset_dir (some sp) lt cl ii nw sh sd ms fs).1 =
        (.error e, fs1) ∧
      (download_and_prepare dl dataset_dir (some sp) lt cl ii nw sh sd ms fs).2.length = 1 := by
  refine ⟨download_err_eq dl dataset_dir sp lt cl ii nw sh sd ms fs e fs1 hdl, ?_⟩
  rw [download_trace_eq]
  rfl

theorem c3_downloader_error_propagates_witness :
    (download_and_prepare
        (fun (_ : DownloadArgs Unit Unit Unit Unit Unit Unit) fs =>
          ((.error ⟨"HTTPError: 404"⟩ : Except PyError (Nat × List String × Unit)), fs))
        "/d3" (some "test") () () () () false () () []).1 =
        (.error ⟨"HTTPError: 404"⟩, []) ∧
      (download_and_prepare
        (fun (_ : DownloadArgs Unit Unit Unit Unit Unit Unit) fs =>
          ((.error ⟨"HTTPError: 404"⟩ : Except PyError (Nat × List String × Unit)), fs))
        "/d3" (some "test") () () () () false () () []).2.length = 1 :=
  c3_downloader_error_propagates _ "/d3" "test" () () () () false () () []
    ⟨"HTTPError: 404"⟩ [] rfl

/-- Claim C4: when the downloader returns `(num_samples, classes, extra)`
normally, `download_and_prepare` returns the triple
`(None, num_samples, classes)`: the first component is the sentinel
`None`, the next two are the downloader's first two components unmodified,
and the third downloader component is discarded. -/
theorem c4_return_triple {L C I W S M E : Type}
    (dl : Downloader L C I W S M E) (dataset_dir sp : String)
    (lt : L) (cl : C) (ii : I) (nw : W) (sh : Bool) (sd : S) (ms : M) (fs : FS)
    (n : Nat) (cs : List String) (ex : E) (fs1 : FS)
    (hdl : dl ⟨osPathJoin dataset_dir sp, sp, "2017", lt, cl, ii, nw, sh, sd, ms,
        osPathJoin dataset_dir "raw", osPathJoin dataset_dir "tmp-download"⟩ fs =
      (.ok (n, cs, ex), fs1)) :
    (download_and_prepare dl dataset_dir (some sp) lt cl ii nw sh sd ms fs).1.1 =
      .ok ((none : Option Unit), n, cs) :=
  (download_ok_eq dl dataset_dir sp lt cl ii nw sh sd ms fs n cs ex fs1 hdl).1

theorem c4_return_triple_witness :
    (download_and_prepare
        (fun (_ : DownloadArgs Unit Unit Unit Unit Unit Unit) fs =>
          ((.ok (7, ["cat", "dog"], "leftover") :
            Except PyError (Nat × List String × String)), fs))
        "/d4" (some "train") () () () () false () () []).1.1 =
      .ok ((none : Option Unit), 7, ["cat", "dog"]) :=
  c4_return_triple _ "/d4" "train" () () () () false () () []
    7 ["cat", "dog"] "leftover" [] rfl

/-- Claim C5: `download_and_prepare` invokes the external downloader
exactly once, with destination `dataset_dir/split` computed by path
joining, the original split, the fixed version tag "2017", the caller's
`label_types`, `classes`, `image_ids`, `num_workers`, `shuffle`, `seed`
and `max_samples` unchanged, and with `raw_dir = dataset_dir/raw` and
`scratch_dir = dataset_dir/tmp-download` computed by path joining —
whatever the downloader then does. -/
theorem c5_downloader_delegation {L C I W S M E : Type}
    (dl : Downloader L C I W S M E) (dataset_dir sp : String)
    (lt : L) (cl : C) (ii : I) (nw : W) (sh : Bool) (sd : S) (ms : M) (fs : FS) :
    (download_and_prepare dl dataset_dir (some sp) lt cl ii nw sh sd ms fs).2 =
      [⟨osPathJoin dataset_dir sp, sp, "2017", lt, cl, ii, nw, sh, sd, ms,
        osPathJoin dataset_dir "raw", osPathJoin dataset_dir "tmp-download"⟩] :=
  download_trace_eq dl dataset_dir sp lt cl ii nw sh sd ms fs

/-- Claim C6: `load_dataset` invokes the dataset handle's `add_dir`
exactly once, with `dataset_dir/split` computed by path joining, the fixed
annotation-format identifier `fo.types.COCODetectionDataset`, and the
caller's `label_types`, `classes`, `image_ids`, `shuffle`, `seed` and
`max_samples` unchanged; its own return value is unit (`None`) whenever
that call succeeds, and the final dataset state is exactly what that one
`add_dir` call produced — the function performs no other mutation. -/
theorem c6_load_delegation {L C I S M D R : Type}
    (ad : AddDirFn L C I S M D R) (dataset : D) (dataset_dir sp : String)
    (lt : L) (cl : C) (ii : I) (sh : Bool) (sd : S) (ms : M) :
    (load_dataset ad dataset dataset_dir (some sp) lt cl ii sh sd ms).2 =
        [⟨osPathJoin dataset_dir sp, FoDatasetType.COCODetectionDataset,
          lt, cl, ii, sh, sd, ms⟩] ∧
      (load_dataset ad dataset dataset_dir (some sp) lt cl ii sh sd ms).1.2 =
        (ad ⟨osPathJoin dataset_dir sp, FoDatasetType.COCODetectionDataset,
          lt, cl, ii, sh, sd, ms⟩ dataset).2 ∧
      (load_dataset ad dataset dataset_dir (some sp) lt cl ii sh sd ms).1.1 =
        Except.map (fun _ => ())
          (ad ⟨osPathJoin dataset_dir sp, FoDatasetType.COCODetectionDataset,
            lt, cl, ii, sh, sd, ms⟩ dataset).1 :=
  load_run_eq ad dataset dataset_dir sp lt cl ii sh sd ms


/-- Claim C7: under the stated contract that the external downloader honors
the `max_samples` filter (whenever it returns normally with its
`max_samples` argument equal to `some N`, the sample count it reports is
at most `N`), every normal return of `download_and_prepare` called with
`max_samples = some N` reports at most `N` samples. -/
theorem c7_max_samples_bound {L C I W S E : Type}
    (dl : Downloader L C I W S (Option Nat) E)
    (honors : ∀ a fs0 n cs ex fs1 N, dl a fs0 = (.ok (n, cs, ex), fs1) →
        a.max_samples = some N → n ≤ N)
    (dataset_dir sp : String) (lt : L) (cl : C) (ii : I) (nw : W)
    (sh : Bool) (sd : S) (N : Nat) (fs : FS)
    (dt : Option Unit) (n : Nat) (cs : List String)
    (hres : (download_and_prepare dl dataset_dir (some sp) lt cl ii nw sh sd
        (some N) fs).1.1 = .ok (dt, n, cs)) :
    n ≤ N := by
  rcases hdl : dl ⟨osPathJoin dataset_dir sp, sp, "2017", lt, cl, ii, nw, sh, sd, some N,
      osPathJoin dataset_dir "raw", osPathJoin dataset_dir "tmp-download"⟩ fs with ⟨r, fs1⟩
  cases r with
  | error e =>
    have h1 := download_err_eq dl dataset_dir sp lt cl ii nw sh sd (some N) fs e fs1 hdl
    have h2 : ((download_and_prepare dl dataset_dir (some sp) lt cl ii nw sh sd
        (some N) fs).1).1 = .error e := by rw [h1]
    rw [h2] at hres
    exact absurd hres (by simp)
  | ok v =>
    rcases v with ⟨n2, cs2, ex⟩
    have h1 := (download_ok_eq dl dataset_dir sp lt cl ii nw sh sd (some N) fs
      n2 cs2 ex fs1 hdl).1
    rw [h1] at hres
    have hn : n2 = n := by
      have := (Except.ok.inj hres)
      exact congrArg (fun p => p.2.1) this
    subst hn
    exact honors _ fs n2 cs2 ex fs1 N hdl rfl

theorem c7_max_samples_bound_witness : (0 : Nat) ≤ 10 :=
  c7_max_samples_bound
    (fun (_ : DownloadArgs Unit Unit Unit Unit Unit (Option Nat)) fs =>
      ((.ok (0, [], ()) : Except PyError (Nat × List String × Unit)), fs))
    (by
      intro a fs0 n cs ex fs1 N h hm
      have h2 : Except.ok (0, ([] : List String), ()) =
          (Except.ok (n, cs, ex) : Except PyError (Nat × List String × Unit)) :=
        congrArg Prod.fst h
      have h3 := Except.ok.inj h2
      have hn : (0 : Nat) = n := congrArg (fun p => p.1) h3
      omega)
    "/d7" "train" () () () () false () 10 [] none 0 [] rfl

/-- Claim C8: given the same (deterministic) downloader, equal arguments
component by component produce identical runs of `download_and_prepare`
— the selected sample set, the whole outcome and the whole call trace
coincide — and every downloader invocation in the trace carries `shuffle`
and `seed` exactly as the caller passed them. -/
theorem c8_deterministic_invocations {L C I W S M E : Type}
    (dl : Downloader L C I W S M E) (dataset_dir : String) (sp : Option String)
    (lt lt2 : L) (cl cl2 : C) (ii ii2 : I) (nw nw2 : W) (sh sh2 : Bool)
    (sd sd2 : S) (ms ms2 : M) (fs fs2 : FS)
    (h1 : lt = lt2) (h2 : cl = cl2) (h3 : ii = ii2) (h4 : nw = nw2)
    (h5 : sh = sh2) (h6 : sd = sd2) (h7 : ms = ms2) (h8 : fs = fs2) :
    download_and_prepare dl dataset_dir sp lt cl ii nw sh sd ms fs =
        download_and_prepare dl dataset_dir sp lt2 cl2 ii2 nw2 sh2 sd2 ms2 fs2 ∧
      ∀ a ∈ (download_and_prepare dl dataset_dir sp lt cl ii nw sh sd ms fs).2,
        a.shuffle = sh ∧ a.seed = sd := by
  subst h1; subst h2; subst h3; subst h4; subst h5; subst h6; subst h7; subst h8
  refine ⟨rfl, ?_⟩
  cases sp with
  | none =>
    intro a ha
    simp [download_and_prepare] at ha
  | some s =>
    intro a ha
    rw [download_trace_eq] at ha
    rcases List.mem_singleton.mp ha with rfl
    exact ⟨rfl, rfl⟩

theorem c8_deterministic_invocations_witness :
    (download_and_prepare
          (fun (_ : DownloadArgs Nat Nat Nat Nat Nat Nat) fs =>
            ((.ok (0, [], ()) : Except PyError (Nat × List String × Unit)), fs))
          "/d8" (some "train") 1 2 3 4 true 5 6 [] =
        download_and_prepare
          (fun (_ : DownloadArgs Nat Nat Nat Nat Nat Nat) fs =>
            ((.ok (0, [], ()) : Except PyError (Nat × List String × Unit)), fs))
          "/d8" (some "train") 1 2 3 4 true 5 6 []) ∧
      ∀ a ∈ (download_and_prepare
          (fun (_ : DownloadArgs Nat Nat Nat Nat Nat Nat) fs =>
            ((.ok (0, [], ()) : Except PyError (Nat × List String × Unit)), fs))
          "/d8" (some "train") 1 2 3 4 true 5 6 []).2,
        a.shuffle = true ∧ a.seed = 5 :=
  c8_deterministic_invocations _ "/d8" (some "train") 1 1 2 2 3 3 4 4 true true 5 5 6 6 [] []
    rfl rfl rfl rfl rfl rfl rfl rfl

/-- Claim C10: neither function inspects or validates `label_types`,
`classes`, `image_ids` or `max_samples` locally: the statement is
polymorphic over the types of these parameters, so for every value of any
type — however malformed — the single collaborator invocation receives
exactly the caller's values, and any rejection must originate in the
collaborator. -/
theorem c10_filters_forwarded_verbatim {L C I W S M E D R : Type}
    (dl : Downloader L C I W S M E) (ad : AddDirFn L C I S M D R)
    (dataset : D) (dataset_dir sp : String)
    (lt : L) (cl : C) (ii : I) (nw : W) (sh : Bool) (sd : S) (ms : M) (fs : FS) :
    ((download_and_prepare dl dataset_dir (some sp) lt cl ii nw sh sd ms fs).2).map
        (fun a => (a.label_types, a.classes, a.image_ids, a.max_samples)) =
      [(lt, cl, ii, ms)] ∧
    ((load_dataset ad dataset dataset_dir (some sp) lt cl ii sh sd ms).2).map
        (fun a => (a.label_types, a.classes, a.image_ids, a.max_samples)) =
      [(lt, cl, ii, ms)] := by
  constructor
  · rw [download_trace_eq]
    rfl
  · rw [(load_run_eq ad dataset dataset_dir sp lt cl ii sh sd ms).1]
    rfl

end Coco2017
